import Mathlib

/-!
Verification of the smart-learner tutoring orchestration core.

This file gives a shallow embedding of the parts of the repository that the
spec claims concern:

* `backend/agents/tools/knowledge_assessor_tools.py` — the rule-based
  understanding classifier and next-action policy (the module concatenates
  three copies of the toolset; in Python the last definitions win, and those
  are what is embedded here);
* `backend/agents/tools/mnemonic_generator_tools.py` — concept-feature
  analysis and mnemonic strategy selection;
* `backend/agents/react/tool_executor.py` and the `tool_node` of the ReAct
  agents — tool dispatch and per-call failure isolation;
* `backend/workflows/state.py` and
  `backend/workflows/teaching_workflow.py` — the session state record, the
  node bodies, the routing helpers, and the wiring of the top-level
  LangGraph state machine.

Machine-irrelevant fields (opaque identifiers, timestamps, LLM prompt text)
are omitted from the state record; every field a claim mentions is kept.
Sub-agent invocations go through an oracle parameter: the orchestration
nodes only read specific keys out of the dict a sub-agent returns, and the
oracle supplies exactly those keys.  Python float arithmetic in the
classifier is modelled over `ℚ`; at every threshold the code compares
(0.8 / 0.5 / 0.3 / 0.9 against small quotients) the float comparison and
the exact rational comparison agree.
-/

/-- Python `needle in haystack` substring membership on strings. -/
def strIn (needle hay : String) : Bool :=
  decide (needle.data <:+: hay.data)

/-- Python whitespace as used by `str.strip()` with no arguments. -/
def pyWhitespace (c : Char) : Bool :=
  c == ' ' || c == '\t' || c == '\n' || c == '\r' || c == '\x0b' || c == '\x0c'

/-- Python `s.strip()`: remove leading and trailing whitespace. -/
def pyStrip (s : String) : String :=
  ⟨((s.data.dropWhile pyWhitespace).reverse.dropWhile pyWhitespace).reverse⟩

/-- True when the string has at least one decimal digit (Python `re.search(r"\d", s)`;
the Unicode digits Python additionally accepts do not occur in any input considered). -/
def hasDigit (s : String) : Bool :=
  s.data.any Char.isDigit

/-- Counts maximal runs of decimal digits in a character list: the number of
matches of Python `re.findall(r"\d+", s)`. `prev` records whether the previous
character was a digit. -/
def countDigitRunsAux : List Char → Bool → Nat
  | [], _ => 0
  | c :: rest, prev =>
    if c.isDigit then (if prev then 0 else 1) + countDigitRunsAux rest true
    else countDigitRunsAux rest false

/-- Number of `\d+` matches in a string. -/
def countNumbers (s : String) : Nat :=
  countDigitRunsAux s.data false

/-! ## Knowledge assessor tools
`backend/agents/tools/knowledge_assessor_tools.py`, lines 549-655 (the
copy that is live at import time). -/

/-- The negative keywords of `assess_understanding_level` (line 582). -/
def negative_keywords : List String :=
  ["不知道", "不理解", "不懂", "不清楚", "没听懂"]

/-- Result dict of `assess_understanding_level`. -/
structure AssessOutcome where
  assessment_result : String
  confidence_level : String
  assessment_details : String
deriving DecidableEq

/-- Count of understood key points that contain some expected key point as a
substring (line 593: `len([kp for kp in key_points_understood if any(exp in kp
for exp in expected_key_points)])`). -/
def coveredCount (key_points_understood expected_key_points : List String) : Nat :=
  (key_points_understood.filter
    (fun kp => expected_key_points.any (fun exp => strIn exp kp))).length

/-- The coverage quotient of lines 592-597, as an exact rational
(`mkRat a b` is the rational `a / b`; the Python code computes the same value
as a float, and at every threshold the two comparisons agree). -/
def coverageOf (key_points_understood expected_key_points : List String) : ℚ :=
  if expected_key_points = [] then
    min (mkRat key_points_understood.length 3) (mkRat 1 1)
  else
    mkRat (coveredCount key_points_understood expected_key_points)
      expected_key_points.length

/-- `assess_understanding_level` (lines 550-621): rule-based three-way
classification of the learner response. -/
def assess_understanding_level (key_points_understood misunderstandings
    expected_key_points : List String) (learner_response : String) : AssessOutcome :=
  if learner_response = "" ∨ (pyStrip learner_response).length < 10 then
    ⟨"not_understood", "low", "回答过于简短，无法判断理解程度"⟩
  else if negative_keywords.any (fun kw => strIn kw learner_response) then
    ⟨"not_understood", "low", "学习者明确表示不理解"⟩
  else
    let coverage := coverageOf key_points_understood expected_key_points
    let has_serious_misunderstanding := 2 ≤ misunderstandings.length
    let has_minor_misunderstanding := misunderstandings.length = 1
    -- the thresholds 0.8 / 0.9 / 0.5 / 0.3 of lines 604-621, as exact rationals
    if coverage ≥ mkRat 8 10 ∧ ¬ has_serious_misunderstanding then
      ⟨"fully_understood", if coverage ≥ mkRat 9 10 then "high" else "medium_high",
        "学习者充分理解了核心概念"⟩
    else if coverage ≥ mkRat 5 10 ∨ (coverage ≥ mkRat 3 10 ∧ ¬ has_serious_misunderstanding) then
      ⟨"partially_understood", if has_minor_misunderstanding then "medium" else "medium_high",
        "学习者理解了主要概念，但有部分细节不清楚"⟩
    else
      ⟨"not_understood", if has_serious_misunderstanding then "low" else "medium",
        "学习者对概念的理解不足，需要重新讲解"⟩

/-- `decide_next_action` (lines 625-654): routing policy after an assessment. -/
def decide_next_action (assessment_result : String) (retry_count max_retries : Nat) : String :=
  if assessment_result = "fully_understood" then "continue"
  else if assessment_result = "partially_understood" then "adaptive_followup"
  else if assessment_result = "not_understood" then
    (if retry_count < max_retries then "retry" else "record_gap")
  else "continue"

/-- The assess-understanding pipeline with the key-point extraction step left
as an oracle: `extract_key_points` is an LLM call whose output feeds
`assess_understanding_level` as `key_points_understood`
(`knowledge_assessor_agent.py` system prompt lines 107-125). -/
def assessPipeline (extractOracle : String → List String → List String)
    (learner_response : String) (expected_key_points misunderstandings : List String) :
    AssessOutcome :=
  assess_understanding_level (extractOracle learner_response expected_key_points)
    misunderstandings expected_key_points learner_response

/-! ## Mnemonic generator tools
`backend/agents/tools/mnemonic_generator_tools.py`, lines 17-41. -/

/-- Feature dict produced by `analyze_concept_features`. -/
structure ConceptFeatures where
  formulas_count : Nat
  has_comparison : Bool
  abstraction_level : String
  structure_type : String
deriving DecidableEq

/-- `analyze_concept_features` (lines 18-28). -/
def analyze_concept_features (_concept_name explanation : String) : ConceptFeatures :=
  let numbers := countNumbers explanation
  { formulas_count := numbers
    has_comparison := strIn "vs" explanation || strIn "对比" explanation
    abstraction_level := "medium"
    structure_type := if numbers ≠ 0 then "formula" else "relationship" }

/-- `select_mnemonic_strategy` (lines 32-41): rule-based strategy list with
a non-empty default. -/
def select_mnemonic_strategy (features : ConceptFeatures) : List String :=
  let strategies :=
    (if 3 ≤ features.formulas_count then ["acronym"] else []) ++
    (if features.has_comparison then ["comparison"] else []) ++
    (if features.abstraction_level = "high" then ["analogy"] else [])
  if strategies = [] then ["acronym"] else strategies

/-! ## The ReAct reasoning-action cycle
`backend/agents/react/tool_executor.py` and the `tool_node` /
`should_continue` loop of `backend/agents/react/knowledge_assessor_agent.py`
(lines 183-257; the other four agents use the identical structure).
A capability invocation that raises in Python is modelled as the capability
returning `Except.error` with the error description. -/

/-- A tool call as produced by the LLM: `{id, name, args}` with an opaque
argument payload. -/
structure ToolCall where
  id : String
  name : String
  args : String
deriving DecidableEq

/-- `ToolExecutor.invoke` (tool_executor.py lines 40-62): unknown names raise
`ValueError` (modelled as `.error`); known tools run the capability. -/
def toolExecutorInvoke (tools : List (String × (String → Except String String)))
    (tc : ToolCall) : Except String String :=
  match tools.lookup tc.name with
  | none => Except.error ("Unknown tool: " ++ tc.name)
  | some f => f tc.args

/-- Transcript entries: LLM replies (with requested tool calls) and tool
observations. -/
inductive Msg
  | human (content : String)
  | ai (content : String) (tool_calls : List ToolCall)
  | toolMsg (content : String) (tool_call_id : String)
deriving DecidableEq

/-- `messages[-1].tool_calls` with the default `[]` of `getattr` (line 191). -/
def lastToolCalls (messages : List Msg) : List ToolCall :=
  match messages.getLast? with
  | some (Msg.ai _ calls) => calls
  | _ => []

/-- One observation per tool call (lines 222-237): on success the serialized
result, on failure the error description — the exception is caught and does
not escape the node. -/
def toolObservation (cap : ToolCall → Except String String) (tc : ToolCall) : Msg :=
  match cap tc with
  | Except.ok r => Msg.toolMsg r tc.id
  | Except.error e => Msg.toolMsg ("工具执行错误: " ++ e) tc.id

/-- `tool_node` (lines 183-242): appends one observation per requested call
and hands control back to the agent node; with no pending calls it reports
`next_step = "end"`. -/
def tool_node (cap : ToolCall → Except String String) (messages : List Msg) :
    List Msg × Option String :=
  let calls := lastToolCalls messages
  if calls.isEmpty then (messages, some "end")
  else (messages ++ calls.map (toolObservation cap), some "agent")

/-- The agent ⇄ tools loop of the compiled ReAct graph.  The oracle is the
finite script of LLM replies `(text, tool_calls)`; the loop runs the tool
node after every reply that requests calls and stops at the first reply
without calls (`should_continue = "end"`), or when the script is exhausted
(the oracle has stopped requesting actions). -/
def runCycle (cap : ToolCall → Except String String) :
    List (String × List ToolCall) → List Msg → List Msg
  | [], messages => messages
  | (text, calls) :: rest, messages =>
    let messages := messages ++ [Msg.ai text calls]
    if calls.isEmpty then messages
    else runCycle cap rest (tool_node cap messages).1

/-! ## Session state
`backend/workflows/state.py`.  Opaque identifier fields (UUIDs), timestamps
and fields no stage of `teaching_workflow.py` reads or writes are omitted;
value payloads that the orchestration never inspects (concept records,
mnemonic devices, validation reports) are carried as opaque strings. -/

/-- `ComprehensionQuestion` (state.py lines 47-53). -/
structure CompQuestion where
  question_text : String
  expected_key_points : Option (List String) := none
deriving DecidableEq

/-- A retrieved-concept dict as inspected by `_check_needs_validation`
(teaching_workflow.py lines 624-630): only the truthiness of `formulas` and
`rules` is ever read. -/
structure ConceptDict where
  formulas : Option String := none
  rules : Option String := none
deriving DecidableEq

/-- Python truthiness of an optional string payload. -/
def truthyOpt : Option String → Bool
  | some s => s ≠ ""
  | none => false

/-- `TeachingState` (state.py lines 59-437), restricted to the fields the
workflow reads or writes.  Defaults are the field defaults of the model. -/
structure TeachingState where
  question_text : Option String := none
  initial_understanding : Option String := none
  knowledge_gaps : List String := []
  retrieved_concepts : List ConceptDict := []
  needs_validation : Bool := false
  validation_result : Option String := none
  verified_sources : List String := []
  skip_validation : Bool := false
  baseline_level : Option String := none
  baseline_assessment : Option String := none
  explanation : Option String := none
  generated_mnemonic : Option String := none
  mnemonic_devices : List String := []
  recommended_strategy : Option String := none
  skip_mnemonic : Bool := false
  comprehension_questions : List CompQuestion := []
  learner_response : Option String := none
  assessment_result : Option String := none
  assessment_details : Option String := none
  confidence_level : Option String := none
  key_points_understood : List String := []
  misunderstandings : List String := []
  intent : Option String := none
  next_action : Option String := none
  retry_count : Nat := 0
  max_retries : Nat := 3
  review_reminders : List String := []
  learning_efficiency : Option String := none
  workflow_stage : Option String := some "initialized"
  error_message : Option String := none
deriving DecidableEq

/-- `create_initial_state` (state.py lines 533-587): identifiers omitted. -/
def create_initial_state (question_text initial_understanding : Option String) :
    TeachingState :=
  { question_text := question_text
    initial_understanding := initial_understanding
    workflow_stage := some "initialized" }

/-! ## Workflow nodes
`backend/workflows/teaching_workflow.py` lines 215-557.  A sub-agent
invocation (`invoke_socratic_teacher` and friends) is modelled by an
`Except String AgentOracle` argument: `.ok o` is the dict the sub-agent
returned (each node reads only specific keys, with the defaults shown in the
source), `.error e` is a Python exception raised inside the invocation.
None of the nodes or `run()` contains a try/except around these invocations
— only `_detect_intent_node` guards its own LLM call — so a failing
invocation propagates, which the `Except` plumbing makes explicit.  Each
node also reports how many sub-agent invocations it performed. -/

/-- The keys the orchestration nodes read from a sub-agent reply. -/
structure AgentOracle where
  intent_reply : String := "learn"
  baseline_level : Option String := none
  baseline_assessment : Option String := none
  retrieved_concepts : List ConceptDict := []
  validation_result : Option String := none
  verification_sources : List String := []
  explanation : Option String := none
  generated_mnemonic : Option String := none
  recommended_strategies : List String := []
  comprehension_questions : List CompQuestion := []
  assessment_result : Option String := none
  confidence_level : Option String := none
  assessment_details : Option String := none
  key_points_understood : List String := []
  misunderstandings : List String := []
  next_action : Option String := none
  knowledge_gaps : List String := []
  efficiency_metrics : Option String := none
  review_recommendations : List String := []
deriving DecidableEq

/-- `_initialize_node` (lines 215-221); the timestamp field is omitted. -/
def init_node (s : TeachingState) : TeachingState :=
  { s with workflow_stage := some "initialized" }

/-- `_detect_intent_node` (lines 225-262).  `intent_reply` is the stripped,
lowercased LLM reply; the try/except of lines 250-254 catches an LLM failure
and falls back to "learn", so this node never propagates an exception. -/
def detect_intent_node (invoke : Except String AgentOracle) (s : TeachingState) :
    TeachingState :=
  if s.question_text = none ∨ s.question_text = some "" then
    { s with intent := some "learn", workflow_stage := some "intent_detected" }
  else
    let raw := match invoke with
      | Except.ok o => o.intent_reply
      | Except.error _ => "learn"
    let raw := if raw = "learn" ∨ raw = "practice" ∨ raw = "progress" ∨ raw = "review"
      then raw else "learn"
    { s with intent := some raw, workflow_stage := some "intent_detected" }

/-- `_evaluate_baseline_node` (lines 274-288): no exception handling. -/
def evaluate_baseline_node (invoke : Except String AgentOracle) (s : TeachingState) :
    Except String (TeachingState × Nat) :=
  invoke.map fun o =>
    ({ s with baseline_level := o.baseline_level
              baseline_assessment := o.baseline_assessment
              workflow_stage := some "baseline_evaluated" }, 1)

/-- `_check_needs_validation` (lines 624-630). -/
def check_needs_validation (concepts : List ConceptDict) : Bool :=
  concepts.any fun c => truthyOpt c.formulas || truthyOpt c.rules

/-- `_retrieve_knowledge_node` (lines 290-306). -/
def retrieve_knowledge_node (invoke : Except String AgentOracle) (s : TeachingState) :
    Except String (TeachingState × Nat) :=
  invoke.map fun o =>
    ({ s with retrieved_concepts := o.retrieved_concepts
              needs_validation := check_needs_validation o.retrieved_concepts
              workflow_stage := some "knowledge_retrieved" }, 1)

/-- `_validate_content_node` (lines 308-330): skips (without invoking the
validator agent) when `skip_validation` is set or the explanation is absent
or empty. -/
def validate_content_node (invoke : Except String AgentOracle) (s : TeachingState) :
    Except String (TeachingState × Nat) :=
  if s.skip_validation ∨ s.explanation = none ∨ s.explanation = some "" then
    Except.ok ({ s with workflow_stage := some "validation_skipped" }, 0)
  else
    invoke.map fun o =>
      ({ s with validation_result := o.validation_result
                verified_sources := o.verification_sources
                workflow_stage := some "content_validated" }, 1)

/-- `_generate_explanation_node` (lines 332-347).  Note: `retry_count` is not
touched here, nor anywhere else in the workflow. -/
def generate_explanation_node (invoke : Except String AgentOracle) (s : TeachingState) :
    Except String (TeachingState × Nat) :=
  invoke.map fun o =>
    ({ s with explanation := some (o.explanation.getD "")
              workflow_stage := some "explanation_generated" }, 1)

/-- `_generate_mnemonic_node` (lines 349-379): short-circuits (0 agent
invocations) when `skip_mnemonic` is set or the result is already
`fully_understood`; otherwise invokes the mnemonic agent and appends any
generated device. -/
def generate_mnemonic_node (invoke : Except String AgentOracle) (s : TeachingState) :
    Except String (TeachingState × Nat) :=
  if s.skip_mnemonic ∨ s.assessment_result = some "fully_understood" then
    Except.ok ({ s with workflow_stage := some "mnemonic_skipped" }, 0)
  else
    invoke.map fun o =>
      ({ s with generated_mnemonic := o.generated_mnemonic
                recommended_strategy := o.recommended_strategies.head?
                mnemonic_devices := s.mnemonic_devices ++ o.generated_mnemonic.toList
                workflow_stage := some "mnemonic_generated" }, 1)

/-- `_create_comprehension_check_node` (lines 381-395). -/
def create_comprehension_check_node (invoke : Except String AgentOracle)
    (s : TeachingState) : Except String (TeachingState × Nat) :=
  invoke.map fun o =>
    ({ s with comprehension_questions := o.comprehension_questions
              workflow_stage := some "comprehension_check_created" }, 1)

/-- `_wait_for_response_node` (lines 397-399): only tags the stage — the
graph has no interrupt here, so execution continues into the assessment. -/
def wait_for_response_node (s : TeachingState) : TeachingState :=
  { s with workflow_stage := some "waiting_for_response" }

/-- `_assess_understanding_node` (lines 403-451): with no learner response it
short-circuits (0 agent invocations) to `not_understood` /
`assessment_failed`; otherwise it performs two assessor invocations
(`assess_understanding`, then `recommend_next_action`) and copies their
outputs. -/
def assess_understanding_node (invoke : Except String AgentOracle) (s : TeachingState) :
    Except String (TeachingState × Nat) :=
  if s.learner_response = none ∨ s.learner_response = some "" then
    Except.ok ({ s with assessment_result := some "not_understood"
                        workflow_stage := some "assessment_failed" }, 0)
  else
    invoke.map fun o =>
      ({ s with assessment_result := o.assessment_result
                confidence_level := o.confidence_level
                assessment_details := o.assessment_details
                key_points_understood := o.key_points_understood
                misunderstandings := o.misunderstandings
                next_action := o.next_action
                workflow_stage := some "understanding_assessed" }, 2)

/-- `_adaptive_followup_node` (lines 453-468): the explanation defaults to
the current one when the agent reply lacks it. -/
def adaptive_followup_node (invoke : Except String AgentOracle) (s : TeachingState) :
    Except String (TeachingState × Nat) :=
  invoke.map fun o =>
    ({ s with explanation := match o.explanation with
                | some e => some e
                | none => s.explanation
              workflow_stage := some "followup_generated" }, 1)

/-- `_update_progress_node` (lines 470-490): refreshes progress only on
`fully_understood`. -/
def update_progress_node (invoke : Except String AgentOracle) (s : TeachingState) :
    Except String (TeachingState × Nat) :=
  if ¬ s.assessment_result = some "fully_understood" then
    Except.ok ({ s with workflow_stage := some "progress_skipped" }, 0)
  else
    invoke.map fun o =>
      ({ s with knowledge_gaps := o.knowledge_gaps
                workflow_stage := some "progress_updated" }, 1)

/-- `_record_gap_node` (lines 492-495): only tags the state. -/
def record_gap_node (s : TeachingState) : TeachingState :=
  { s with workflow_stage := some "gap_recorded" }

/-- `_finalize_node` (lines 497-502); the timestamp field is omitted. -/
def finalize_node (s : TeachingState) : TeachingState :=
  { s with workflow_stage := some "completed" }

/-- `_progress_entry_node` (lines 506-518). -/
def progress_entry_node (invoke : Except String AgentOracle) (s : TeachingState) :
    Except String (TeachingState × Nat) :=
  invoke.map fun o =>
    ({ s with learning_efficiency := o.efficiency_metrics
              workflow_stage := some "progress_overview_generated" }, 1)

/-- `_review_entry_node` (lines 520-532). -/
def review_entry_node (invoke : Except String AgentOracle) (s : TeachingState) :
    Except String (TeachingState × Nat) :=
  invoke.map fun o =>
    ({ s with review_reminders := o.review_recommendations
              workflow_stage := some "review_recommendations_generated" }, 1)

/-- `_assessment_entry_node` (lines 534-552). -/
def assessment_entry_node (invoke : Except String AgentOracle) (s : TeachingState) :
    Except String (TeachingState × Nat) :=
  invoke.map fun o =>
    ({ s with assessment_result := o.assessment_result
              confidence_level := o.confidence_level
              assessment_details := o.assessment_details
              workflow_stage := some "assessment_only_completed" }, 1)

/-- `_other_entry_node` (lines 554-557). -/
def other_entry_node (s : TeachingState) : TeachingState :=
  { s with intent := some "learn", workflow_stage := some "fallback_to_learn" }

/-! ## Routing helpers (lines 563-630). -/

/-- The keyword list of `_should_validate_content` (line 578). -/
def validation_keywords : List String :=
  ["规则", "公式", "法律", "税率", "限额", "%", "率"]

/-- `_should_validate_content` (lines 563-587). -/
def should_validate_content (s : TeachingState) : String :=
  if s.skip_validation then "skip"
  else
    let explanation := s.explanation.getD ""
    if explanation = "" then "skip"
    else if validation_keywords.any (fun k => strIn k explanation) then "validate"
    else if hasDigit explanation then "validate"
    else "skip"

/-- `_should_generate_mnemonic` (lines 589-600). -/
def should_generate_mnemonic (s : TeachingState) : String :=
  if s.skip_mnemonic then "skip"
  else if s.assessment_result = some "not_understood" then "generate"
  else if 300 < (s.explanation.getD "").length then "generate"
  else "skip"

/-- The fallback cascade of `_route_after_assessment` (lines 616-622). -/
def route_after_assessment_default (s : TeachingState) : String :=
  if s.assessment_result = some "fully_understood" then "continue"
  else if s.assessment_result = some "partially_understood" then "adaptive_followup"
  else if s.retry_count < s.max_retries then "retry"
  else "record_gap"

/-- `_route_after_assessment` (lines 602-622): a truthy `next_action` wins
over the cascade. -/
def route_after_assessment (s : TeachingState) : String :=
  match s.next_action with
  | some a => if a ≠ "" then a else route_after_assessment_default s
  | none => route_after_assessment_default s

/-- `_route_by_intent` (lines 264-270). -/
def route_by_intent (s : TeachingState) : String :=
  let intent := s.intent.getD "learn"
  if intent = "learn" ∨ intent = "practice" ∨ intent = "progress" ∨ intent = "review"
  then intent else "other"

/-! ## The top-level machine as wired by the edges of `_build_workflow`
(lines 134-203).  `WNode.start_init` is the graph node named "initialize";
`WNode.terminal` is the `END` sentinel; `WNode.routing_error` models the
`KeyError` LangGraph raises when a conditional router returns a value that
is not a key of its path map. -/

inductive WNode
  | start_init | detect_intent | evaluate_baseline | retrieve_knowledge
  | validate_content | generate_explanation | generate_mnemonic
  | create_comprehension_check | wait_for_response | assess_understanding
  | adaptive_followup | update_progress | record_gap
  | progress_entry | review_entry | assessment_entry | other_entry
  | finalize | routing_error | terminal
deriving DecidableEq

/-- The intent path map (lines 141-151). -/
def routeIntentTarget : String → WNode
  | "learn" => WNode.evaluate_baseline
  | "practice" => WNode.assessment_entry
  | "progress" => WNode.progress_entry
  | "review" => WNode.review_entry
  | "other" => WNode.other_entry
  | _ => WNode.routing_error

/-- The post-assessment path map (lines 183-192). -/
def routeAssessTarget : String → WNode
  | "continue" => WNode.update_progress
  | "adaptive_followup" => WNode.adaptive_followup
  | "retry" => WNode.generate_explanation
  | "record_gap" => WNode.record_gap
  | _ => WNode.routing_error

/-- One transition of the machine: run the current node, then follow the
edge or conditional router (lines 134-203).  A sub-agent invocation failure
propagates as `.error` — no node and no caller in `run()` /
`continue_with_response()` catches it. -/
def stepWExc (invoke : WNode → Except String AgentOracle) (p : WNode × TeachingState) :
    Except String (WNode × TeachingState) :=
  match p with
  | (WNode.start_init, s) => Except.ok (WNode.detect_intent, init_node s)
  | (WNode.detect_intent, s) =>
    let s := detect_intent_node (invoke WNode.detect_intent) s
    Except.ok (routeIntentTarget (route_by_intent s), s)
  | (WNode.evaluate_baseline, s) =>
    (evaluate_baseline_node (invoke WNode.evaluate_baseline) s).map fun q =>
      (WNode.retrieve_knowledge, q.1)
  | (WNode.retrieve_knowledge, s) =>
    (retrieve_knowledge_node (invoke WNode.retrieve_knowledge) s).map fun q =>
      (if should_validate_content q.1 = "validate" then WNode.validate_content
       else WNode.generate_explanation, q.1)
  | (WNode.validate_content, s) =>
    (validate_content_node (invoke WNode.validate_content) s).map fun q =>
      (WNode.generate_explanation, q.1)
  | (WNode.generate_explanation, s) =>
    (generate_explanation_node (invoke WNode.generate_explanation) s).map fun q =>
      (if should_generate_mnemonic q.1 = "generate" then WNode.generate_mnemonic
       else WNode.create_comprehension_check, q.1)
  | (WNode.generate_mnemonic, s) =>
    (generate_mnemonic_node (invoke WNode.generate_mnemonic) s).map fun q =>
      (WNode.create_comprehension_check, q.1)
  | (WNode.create_comprehension_check, s) =>
    (create_comprehension_check_node (invoke WNode.create_comprehension_check) s).map fun q =>
      (WNode.wait_for_response, q.1)
  | (WNode.wait_for_response, s) =>
    Except.ok (WNode.assess_understanding, wait_for_response_node s)
  | (WNode.assess_understanding, s) =>
    (assess_understanding_node (invoke WNode.assess_understanding) s).map fun q =>
      (routeAssessTarget (route_after_assessment q.1), q.1)
  | (WNode.adaptive_followup, s) =>
    (adaptive_followup_node (invoke WNode.adaptive_followup) s).map fun q =>
      (WNode.create_comprehension_check, q.1)
  | (WNode.update_progress, s) =>
    (update_progress_node (invoke WNode.update_progress) s).map fun q =>
      (WNode.finalize, q.1)
  | (WNode.record_gap, s) => Except.ok (WNode.finalize, record_gap_node s)
  | (WNode.progress_entry, s) =>
    (progress_entry_node (invoke WNode.progress_entry) s).map fun q =>
      (WNode.finalize, q.1)
  | (WNode.review_entry, s) =>
    (review_entry_node (invoke WNode.review_entry) s).map fun q =>
      (WNode.finalize, q.1)
  | (WNode.assessment_entry, s) =>
    (assessment_entry_node (invoke WNode.assessment_entry) s).map fun q =>
      (WNode.finalize, q.1)
  | (WNode.other_entry, s) => Except.ok (WNode.finalize, other_entry_node s)
  | (WNode.finalize, s) => Except.ok (WNode.terminal, finalize_node s)
  | (WNode.routing_error, s) => Except.ok (WNode.routing_error, s)
  | (WNode.terminal, s) => Except.ok (WNode.terminal, s)

/-- The machine under an always-succeeding family of sub-agent replies. -/
def stepW (o : AgentOracle) (p : WNode × TeachingState) : WNode × TeachingState :=
  match stepWExc (fun _ => Except.ok o) p with
  | Except.ok q => q
  | Except.error _ => p

/-- Running the machine `fuel` steps with exception propagation: the caller
of `run()` receives either a state or the propagated exception. -/
def runExc (invoke : WNode → Except String AgentOracle) :
    Nat → WNode × TeachingState → Except String (WNode × TeachingState)
  | 0, p => Except.ok p
  | n + 1, p => (stepWExc invoke p).bind (runExc invoke n)

/-! ## The literal graph registration of `_build_workflow` (lines 105-209).
Only three `add_node` calls are live; the learn-path and entry node
registrations (lines 114-130) are commented out in the source, while all the
edges below still reference them.  `graphValidates` is LangGraph's
compile-time check that every edge endpoint, conditional-edge source and
target, and the entry point name a registered node (or the END sentinel
`"__end__"`); `StateGraph.compile()` raises when it fails. -/

def registered_nodes : List String := ["initialize", "detect_intent", "finalize"]

def graph_entry_point : String := "initialize"

def direct_edges : List (String × String) :=
  [("initialize", "detect_intent"),
   ("evaluate_baseline", "retrieve_knowledge"),
   ("validate_content", "generate_explanation"),
   ("generate_mnemonic", "create_comprehension_check"),
   ("create_comprehension_check", "wait_for_response"),
   ("wait_for_response", "assess_understanding"),
   ("adaptive_followup", "create_comprehension_check"),
   ("update_progress", "finalize"),
   ("record_gap", "finalize"),
   ("progress_entry", "finalize"),
   ("review_entry", "finalize"),
   ("assessment_entry", "finalize"),
   ("other_entry", "finalize"),
   ("finalize", "__end__")]

def conditional_edge_sources : List String :=
  ["detect_intent", "retrieve_knowledge", "generate_explanation", "assess_understanding"]

def conditional_edge_targets : List String :=
  ["evaluate_baseline", "assessment_entry", "progress_entry", "review_entry", "other_entry",
   "validate_content", "generate_explanation",
   "generate_mnemonic", "create_comprehension_check",
   "update_progress", "adaptive_followup", "record_gap"]

def graphValidates : Bool :=
  registered_nodes.contains graph_entry_point &&
  direct_edges.all (fun e =>
    registered_nodes.contains e.1 &&
    (registered_nodes.contains e.2 || e.2 == "__end__")) &&
  conditional_edge_sources.all (fun n => registered_nodes.contains n) &&
  conditional_edge_targets.all (fun n =>
    registered_nodes.contains n || n == "__end__")

/-! ## Concrete scenarios used by the claim theorems. -/

/-- A fixed sub-agent reply family for a learn session: intent "learn", a
short generated explanation, no comprehension questions, no generated
mnemonic device. -/
def oracleLearn : AgentOracle :=
  { intent_reply := "learn"
    baseline_level := some "beginner"
    explanation := some "导数刻画函数的瞬时变化率" }

/-- The initial state of a learn session started through `run()`; the
learner response is never supplied (the graph has no interrupt at
`wait_for_response`, so `run()` always reaches the assessment with
`learner_response = None`). -/
def stateLearn : TeachingState := create_initial_state (some "什么是导数") none

/-- The trace of the learn session under the intended wiring. -/
def learnTrace (n : Nat) : WNode × TeachingState :=
  (stepW oracleLearn)^[n] (WNode.start_init, stateLearn)

/-- An invocation family whose evaluate-baseline sub-agent call raises. -/
def failingInvoke : WNode → Except String AgentOracle
  | WNode.evaluate_baseline => Except.error "LLM connection failed"
  | _ => Except.ok oracleLearn

/-- An explanation longer than the 300-character mnemonic threshold. -/
def longText : String := String.mk (List.replicate 301 'x')

/-- A state with all model defaults (state.py field defaults). -/
def emptyState : TeachingState := {}

/-! # Theorems -/

/-- Helper: a trace of a step function that revisits a state keeps cycling:
from step `i` on, every state equals one of the `p` states of the window
`[i, i + p)`. -/
theorem iterate_eq_of_periodic {α : Type} (f : α → α) (a : α) (i p : Nat) (hp : 0 < p)
    (h : f^[i + p] a = f^[i] a) : ∀ n, i ≤ n → f^[n] a = f^[i + (n - i) % p] a := by
  intro n
  induction n using Nat.strong_induction_on with
  | _ n ih =>
    intro hn
    by_cases hcase : n < i + p
    · have hm : (n - i) % p = n - i := Nat.mod_eq_of_lt (by omega)
      rw [hm]
      congr 1
      omega
    · push_neg at hcase
      have hstep : f^[n] a = f^[n - p] a := by
        have h1 : n = (n - (i + p)) + (i + p) := by omega
        calc f^[n] a = f^[(n - (i + p)) + (i + p)] a := by rw [← h1]
          _ = f^[n - (i + p)] (f^[i + p] a) := by rw [Function.iterate_add_apply]
          _ = f^[n - (i + p)] (f^[i] a) := by rw [h]
          _ = f^[(n - (i + p)) + i] a := by rw [← Function.iterate_add_apply]
          _ = f^[n - p] a := by congr 1; omega
      rw [hstep, ih (n - p) (by omega) (by omega)]
      congr 1
      have h2 : n - i = (n - p - i) + p := by omega
      rw [h2, Nat.add_mod_right]

/-- Helper: the learn-session trace revisits its step-8 configuration at
step 13, so any pointwise property checked on steps 0-7 and on the window
8-12 holds on the whole infinite trace. -/
theorem learnTrace_forall (P : WNode × TeachingState → Prop)
    (hsmall : ∀ m, m < 8 → P (learnTrace m))
    (hwin : ∀ r, r < 5 → P (learnTrace (8 + r))) :
    ∀ n, P (learnTrace n) := by
  intro n
  by_cases hn : n < 8
  · exact hsmall n hn
  · push_neg at hn
    have hper : (stepW oracleLearn)^[8 + 5] (WNode.start_init, stateLearn) =
        (stepW oracleLearn)^[8] (WNode.start_init, stateLearn) := by decide
    have hkey := iterate_eq_of_periodic (stepW oracleLearn)
      (WNode.start_init, stateLearn) 8 5 (by norm_num) hper n hn
    have hlt : (n - 8) % 5 < 5 := Nat.mod_lt _ (by norm_num)
    have : learnTrace n = learnTrace (8 + (n - 8) % 5) := hkey
    rw [this]
    exact hwin _ hlt

/-- C1: the claim states that `generate_explanation` is re-entered after a
`not_understood` assessment at most `max_retries` times, that reaching the
ceiling routes to `record_gap`, and that each retry loop increments
`retry_count`.  The code violates this: no node of the workflow ever
increments `retry_count` (in particular `_generate_explanation_node`, lines
332-347, does not), so on the learn path with no learner response every
assessment is `not_understood`, the router compares the frozen
`retry_count = 0` against `max_retries = 3`, always answers "retry", and
`generate_explanation` is re-entered forever — steps 4, 8, 13, 18, 23 of the
trace — while `record_gap` is never reached. -/
theorem c1_retry_bound_violated :
    stateLearn.max_retries = 3 ∧
    (learnTrace 4).1 = WNode.generate_explanation ∧
    (learnTrace 8).1 = WNode.generate_explanation ∧
    (learnTrace 13).1 = WNode.generate_explanation ∧
    (learnTrace 18).1 = WNode.generate_explanation ∧
    (learnTrace 23).1 = WNode.generate_explanation ∧
    (∀ n, (learnTrace n).2.retry_count = 0) ∧
    (∀ n, (learnTrace n).1 ≠ WNode.record_gap) := by
  refine ⟨rfl, by decide, by decide, by decide, by decide, by decide, ?_, ?_⟩
  · exact learnTrace_forall (fun q => q.2.retry_count = 0) (by decide) (by decide)
  · exact learnTrace_forall (fun q => q.1 ≠ WNode.record_gap) (by decide) (by decide)

/-- C2: the claim states every entry intent reaches the `finalized` terminal
stage in a bounded number of transitions.  The code violates this twice.
First, `_build_workflow` registers only the nodes "initialize",
"detect_intent" and "finalize" (the other `add_node` calls, lines 114-130,
are commented out) while its edges still reference the unregistered nodes,
so LangGraph's compile-time validation fails and `run()` can never execute
at all — contradicting the repository's own test
`test_workflow_graph_compiled`.  Second, even under the wiring the edges
describe, a learn session never reaches the terminal stage: with no learner
response the assessment loop cycles forever (see C1), while a progress
session does finalize after four transitions. -/
theorem c2_terminal_convergence_violated :
    graphValidates = false ∧
    ("evaluate_baseline", "retrieve_knowledge") ∈ direct_edges ∧
    registered_nodes.contains "evaluate_baseline" = false ∧
    conditional_edge_sources.all (fun n => registered_nodes.contains n) = false ∧
    (∀ n, (learnTrace n).1 ≠ WNode.terminal) ∧
    ((stepW { oracleLearn with intent_reply := "progress" })^[4]
        (WNode.start_init, stateLearn)).1 = WNode.terminal := by
  refine ⟨by decide, by decide, by decide, by decide, ?_, by decide⟩
  exact learnTrace_forall (fun q => q.1 ≠ WNode.terminal) (by decide) (by decide)

/-- C3 counterexample: with sub-agent replies that raise at the
evaluate-baseline invocation, running the machine from the start of a learn
session yields a propagated exception, not a Session State — `run()`
(lines 636-659), the nodes, and the `invoke_*` helpers contain no
try/except around agent invocations. -/
theorem c3_counterexample :
    runExc failingInvoke 5 (WNode.start_init, stateLearn) =
      Except.error "LLM connection failed" := rfl

/-- C3 amended: only tool-call failures inside an agent's reasoning cycle
and the intent-detection LLM call are caught; an agent invocation failure in
any other stage is not caught at the orchestration boundary — the exception
propagates out of the step (and hence out of `run()`), and the
`error_message` field of Session State is never populated by any stage. -/
theorem c3_not_caught_at_boundary (invoke : WNode → Except String AgentOracle)
    (e : String) (s : TeachingState) (o : AgentOracle) (p : WNode × TeachingState)
    (h : invoke WNode.evaluate_baseline = Except.error e) :
    stepWExc invoke (WNode.evaluate_baseline, s) = Except.error e ∧
    detect_intent_node (Except.error e) s =
      { s with intent := some "learn", workflow_stage := some "intent_detected" } ∧
    (stepW o p).2.error_message = p.2.error_message := by
  refine ⟨?_, ?_, ?_⟩
  · simp [stepWExc, evaluate_baseline_node, h, Except.map]
  · unfold detect_intent_node
    split_ifs <;> rfl
  · obtain ⟨n, t⟩ := p
    cases n <;>
      simp only [stepW, stepWExc, Except.map, init_node, detect_intent_node,
        evaluate_baseline_node, retrieve_knowledge_node, validate_content_node,
        generate_explanation_node, generate_mnemonic_node,
        create_comprehension_check_node, wait_for_response_node,
        assess_understanding_node, adaptive_followup_node, update_progress_node,
        record_gap_node, finalize_node, progress_entry_node, review_entry_node,
        assessment_entry_node, other_entry_node] <;>
      first
        | rfl
        | (split_ifs <;> rfl)

/-- C3 witness: the amended statement applied to the concrete failing
invocation family and the concrete learn session. -/
theorem c3_witness :
    stepWExc failingInvoke (WNode.evaluate_baseline, stateLearn) =
      Except.error "LLM connection failed" ∧
    detect_intent_node (Except.error "LLM connection failed") stateLearn =
      { stateLearn with intent := some "learn", workflow_stage := some "intent_detected" } ∧
    (stepW oracleLearn (WNode.start_init, stateLearn)).2.error_message =
      (WNode.start_init, stateLearn).2.error_message :=
  c3_not_caught_at_boundary failingInvoke "LLM connection failed" stateLearn oracleLearn
    (WNode.start_init, stateLearn) rfl

set_option maxRecDepth 4096 in
/-- C4 counterexample: a state with `assessment_result = fully_understood`,
mnemonic generation not suppressed, and an explanation of 301 characters —
`_should_generate_mnemonic` still answers "generate", so the conditional
edge routes into the `generate_mnemonic` node: the stage is entered despite
the fully-understood result, refuting "never entered regardless of the
explanation's length". -/
theorem c4_counterexample :
    ({ emptyState with
        assessment_result := some "fully_understood"
        explanation := some longText } : TeachingState).skip_mnemonic = false ∧
    should_generate_mnemonic
      { emptyState with
        assessment_result := some "fully_understood"
        explanation := some longText } = "generate" := by
  exact ⟨rfl, by decide⟩

/-- C4 amended: the router enters `generate_mnemonic` exactly when mnemonic
generation is not suppressed and (the assessment result is `not_understood`
or the explanation exceeds 300 characters); on `fully_understood` the node
itself may still be entered, but it short-circuits — the mnemonic agent is
not invoked (0 invocations, even a failing one is never consulted) and the
state only gets the `mnemonic_skipped` stage tag. -/
theorem c4_mnemonic_suppression (s : TeachingState) (invoke : Except String AgentOracle) :
    (should_generate_mnemonic s = "generate" ↔
      s.skip_mnemonic = false ∧
        (s.assessment_result = some "not_understood" ∨
          300 < (s.explanation.getD "").length)) ∧
    (s.assessment_result = some "fully_understood" →
      generate_mnemonic_node invoke s =
        Except.ok ({ s with workflow_stage := some "mnemonic_skipped" }, 0)) := by
  constructor
  · unfold should_generate_mnemonic
    split_ifs with h1 h2 h3 <;> simp_all
  · intro h
    unfold generate_mnemonic_node
    rw [if_pos (Or.inr h)]

/-- C4 witness: the amended statement at the concrete fully-understood state
with a long explanation and a failing mnemonic agent. -/
theorem c4_witness :
    generate_mnemonic_node (Except.error "mnemonic agent crashed")
      { emptyState with
        assessment_result := some "fully_understood"
        explanation := some longText } =
    Except.ok ({ ({ emptyState with
        assessment_result := some "fully_understood"
        explanation := some longText } : TeachingState) with
          workflow_stage := some "mnemonic_skipped" }, 0) :=
  (c4_mnemonic_suppression _ _).2 rfl

/-- C5 counterexample: a learner response that passes the length and
negative-keyword guards, with 2 of 5 expected key points covered — an exact
coverage ratio of 2/5, strictly below 0.5.  The claim says anything below
0.5 yields `not_understood`, but the code (line 610) also accepts any
coverage of at least 0.3 with fewer than two recorded misunderstandings and
answers `partially_understood`. -/
theorem c5_counterexample :
    ¬ (pyStrip "这是一段足够长的回答内容").length < 10 ∧
    negative_keywords.any (fun kw => strIn kw "这是一段足够长的回答内容") = false ∧
    coverageOf ["甲", "乙"] ["甲", "乙", "丙", "丁", "戊"] = mkRat 2 5 ∧
    mkRat 2 5 < (0.5 : ℚ) ∧
    (assess_understanding_level ["甲", "乙"] [] ["甲", "乙", "丙", "丁", "戊"]
        "这是一段足够长的回答内容").assessment_result = "partially_understood" := by
  refine ⟨by decide, by decide, by decide, ?_, by decide⟩
  norm_num [mkRat, Rat.normalize]

/-- C5 amended: for a response of at least 10 stripped characters with no
negative keyword, the three-way result is decided by the coverage value
(the matched-count over expected-count quotient; with no expected points the
fallback `min(len/3, 1)`), with the misunderstanding count as a modifier:
at least 0.8 coverage with fewer than two misunderstandings is
`fully_understood`; otherwise at least 0.5 coverage, or at least 0.3
coverage with fewer than two misunderstandings, is `partially_understood`;
anything else is `not_understood`.  The literal boundary ratios 4/5, 2/4 and
1/5 of the claim (with no misunderstandings) are instances — see the
witness. -/
theorem c5_coverage_classification (kp mis exp : List String) (resp : String)
    (h1 : ¬ (pyStrip resp).length < 10)
    (h2 : negative_keywords.any (fun kw => strIn kw resp) = false) :
    (assess_understanding_level kp mis exp resp).assessment_result =
      (if coverageOf kp exp ≥ 0.8 ∧ mis.length < 2 then "fully_understood"
       else if coverageOf kp exp ≥ 0.5 ∨ (coverageOf kp exp ≥ 0.3 ∧ mis.length < 2) then
         "partially_understood"
       else "not_understood") := by
  have hresp : ¬ (resp = "" ∨ (pyStrip resp).length < 10) := by
    rintro (h | h)
    · subst h; exact h1 (by decide)
    · exact h1 h
  have e8 : (mkRat 8 10 : ℚ) = 0.8 := by norm_num [mkRat, Rat.normalize]
  have e5 : (mkRat 5 10 : ℚ) = 0.5 := by norm_num [mkRat, Rat.normalize]
  have e3 : (mkRat 3 10 : ℚ) = 0.3 := by norm_num [mkRat, Rat.normalize]
  have hm : (2 ≤ mis.length) = ¬ (mis.length < 2) := by
    simp [Nat.not_lt]
  unfold assess_understanding_level
  rw [if_neg hresp, if_neg (by simp [h2])]
  simp only [e8, e5, e3, hm, not_not]
  split_ifs <;> simp_all

/-- C5 witness: the classification at the literal boundary ratios of the
claim — 4/5 coverage is `fully_understood`, 2/4 is `partially_understood`,
1/5 is `not_understood` (no misunderstandings recorded). -/
theorem c5_witness :
    (assess_understanding_level ["甲", "乙", "丙", "丁"] [] ["甲", "乙", "丙", "丁", "戊"]
        "这是一段足够长的回答内容").assessment_result = "fully_understood" ∧
    (assess_understanding_level ["甲", "乙"] [] ["甲", "乙", "丙", "丁"]
        "这是一段足够长的回答内容").assessment_result = "partially_understood" ∧
    (assess_understanding_level ["甲"] [] ["甲", "乙", "丙", "丁", "戊"]
        "这是一段足够长的回答内容").assessment_result = "not_understood" := by
  refine ⟨?_, ?_, ?_⟩
  · have h := c5_coverage_classification ["甲", "乙", "丙", "丁"] []
      ["甲", "乙", "丙", "丁", "戊"] "这是一段足够长的回答内容" (by decide) (by decide)
    have hv : coverageOf ["甲", "乙", "丙", "丁"] ["甲", "乙", "丙", "丁", "戊"] = mkRat 4 5 := by
      decide
    have hc : coverageOf ["甲", "乙", "丙", "丁"] ["甲", "乙", "丙", "丁", "戊"] ≥ (0.8 : ℚ) := by
      rw [hv]; norm_num [mkRat, Rat.normalize]
    rw [h, if_pos ⟨hc, by decide⟩]
  · have h := c5_coverage_classification ["甲", "乙"] [] ["甲", "乙", "丙", "丁"]
      "这是一段足够长的回答内容" (by decide) (by decide)
    have hv : coverageOf ["甲", "乙"] ["甲", "乙", "丙", "丁"] = mkRat 2 4 := by decide
    have hlt : ¬ (coverageOf ["甲", "乙"] ["甲", "乙", "丙", "丁"] ≥ (0.8 : ℚ) ∧
        ([] : List String).length < 2) := by
      rintro ⟨hc, -⟩
      rw [hv] at hc
      norm_num [mkRat, Rat.normalize] at hc
    have hge : coverageOf ["甲", "乙"] ["甲", "乙", "丙", "丁"] ≥ (0.5 : ℚ) := by
      rw [hv]; norm_num [mkRat, Rat.normalize]
    rw [h, if_neg hlt, if_pos (Or.inl hge)]
  · have h := c5_coverage_classification ["甲"] [] ["甲", "乙", "丙", "丁", "戊"]
      "这是一段足够长的回答内容" (by decide) (by decide)
    have hv : coverageOf ["甲"] ["甲", "乙", "丙", "丁", "戊"] = mkRat 1 5 := by decide
    have hlt8 : ¬ (coverageOf ["甲"] ["甲", "乙", "丙", "丁", "戊"] ≥ (0.8 : ℚ) ∧
        ([] : List String).length < 2) := by
      rintro ⟨hc, -⟩
      rw [hv] at hc
      norm_num [mkRat, Rat.normalize] at hc
    have hlt53 : ¬ (coverageOf ["甲"] ["甲", "乙", "丙", "丁", "戊"] ≥ (0.5 : ℚ) ∨
        (coverageOf ["甲"] ["甲", "乙", "丙", "丁", "戊"] ≥ (0.3 : ℚ) ∧
          ([] : List String).length < 2)) := by
      rintro (hc | ⟨hc, -⟩) <;>
        (rw [hv] at hc; norm_num [mkRat, Rat.normalize] at hc)
    rw [h, if_neg hlt8, if_neg hlt53]

/-- C6 counterexample: two runs with identical learner response
("植物通过光合作用把光能转化为化学能"), identical expected key points and identical
(empty) misunderstandings, whose key-point extraction steps return different
lists, produce different assessment results — the result is not a function
of the three named inputs alone. -/
theorem c6_counterexample :
    (assessPipeline (fun _ _ => ["光合作用"]) "植物通过光合作用把光能转化为化学能"
        ["光合作用"] []).assessment_result = "fully_understood" ∧
    (assessPipeline (fun _ _ => []) "植物通过光合作用把光能转化为化学能"
        ["光合作用"] []).assessment_result = "not_understood" :=
  ⟨by decide, by decide⟩

/-- C6 amended: the assessment is deterministic given additionally the
extracted `key_points_understood`: `assess_understanding_level` is a pure
rule, so two runs over identical learner response, expected key points and
misunderstandings whose extraction steps (LLM calls) agree always return
the same assessment result. -/
theorem c6_determinism_given_extraction
    (extract1 extract2 : String → List String → List String)
    (learner_response : String) (expected_key_points misunderstandings : List String)
    (h : extract1 learner_response expected_key_points =
      extract2 learner_response expected_key_points) :
    (assessPipeline extract1 learner_response expected_key_points
        misunderstandings).assessment_result =
    (assessPipeline extract2 learner_response expected_key_points
        misunderstandings).assessment_result := by
  unfold assessPipeline
  rw [h]

/-- C6 witness: the amended determinism applied to two syntactically
different extraction oracles that agree on the given input. -/
theorem c6_witness :
    (assessPipeline (fun _ _ => ["光合作用"]) "植物通过光合作用把光能转化为化学能"
        ["光合作用"] []).assessment_result =
    (assessPipeline (fun _ _ => ["光合" ++ "作用"]) "植物通过光合作用把光能转化为化学能"
        ["光合作用"] []).assessment_result :=
  c6_determinism_given_extraction _ _ _ _ _ (by decide)

/-- C7: `_should_validate_content` answers "validate" exactly when
validation is not suppressed and the explanation contains a
regulatory/numeric keyword (规则/公式/法律/税率/限额/%/率) or a decimal digit;
in particular "Inflation reached 4% in 2023" (digit and "%" present)
triggers validation and "A derivative measures rate of change" skips it. -/
theorem c7_validation_trigger :
    (∀ s : TeachingState, should_validate_content s = "validate" ↔
        (s.skip_validation = false ∧
          (validation_keywords.any (fun k => strIn k (s.explanation.getD "")) = true ∨
            hasDigit (s.explanation.getD "") = true))) ∧
    should_validate_content
      { emptyState with explanation := some "Inflation reached 4% in 2023" } = "validate" ∧
    should_validate_content
      { emptyState with explanation := some "A derivative measures rate of change" } = "skip" := by
  refine ⟨?_, by decide, by decide⟩
  intro s
  unfold should_validate_content
  dsimp only
  split_ifs with h1 h2 h3 h4
  · simp [h1]
  · rw [h2]; simp [h1]; decide
  · simp [h1, h3]
  · simp [h1, h4]
  · simp [h1, h3, h4]

/-- C8: `select_mnemonic_strategy` follows the rules — at least three
numeric/formula mentions selects "acronym", comparison language selects
"comparison", high abstraction selects "analogy", and when no rule fires the
default is exactly ["acronym"]; the returned list is never empty, in
particular on every feature record produced by `analyze_concept_features`. -/
theorem c8_strategy_rules (f : ConceptFeatures) :
    (3 ≤ f.formulas_count → "acronym" ∈ select_mnemonic_strategy f) ∧
    (f.has_comparison = true → "comparison" ∈ select_mnemonic_strategy f) ∧
    (f.abstraction_level = "high" → "analogy" ∈ select_mnemonic_strategy f) ∧
    (f.formulas_count < 3 ∧ f.has_comparison = false ∧ f.abstraction_level ≠ "high" →
      select_mnemonic_strategy f = ["acronym"]) ∧
    select_mnemonic_strategy f ≠ [] ∧
    (∀ concept_name explanation : String,
      select_mnemonic_strategy (analyze_concept_features concept_name explanation) ≠ []) := by
  unfold select_mnemonic_strategy
  refine ⟨?_, ?_, ?_, ?_, ?_, ?_⟩
  · intro h; simp [h]
  · intro h; split_ifs <;> simp_all
  · intro h; split_ifs <;> simp_all
  · rintro ⟨h1, h2, h3⟩
    simp [show ¬ (3 ≤ f.formulas_count) from by omega, h2, h3]
  · split_ifs <;> simp_all
  · intro cn ex
    split_ifs <;> simp_all

/-- C8 witness: the rules applied to a feature record firing all three
rules, and to one firing none (the default). -/
theorem c8_witness :
    ("acronym" ∈ select_mnemonic_strategy ⟨5, true, "high", "formula"⟩ ∧
     "comparison" ∈ select_mnemonic_strategy ⟨5, true, "high", "formula"⟩ ∧
     "analogy" ∈ select_mnemonic_strategy ⟨5, true, "high", "formula"⟩) ∧
    select_mnemonic_strategy ⟨0, false, "medium", "relationship"⟩ = ["acronym"] :=
  ⟨⟨(c8_strategy_rules ⟨5, true, "high", "formula"⟩).1 (by decide),
    (c8_strategy_rules ⟨5, true, "high", "formula"⟩).2.1 rfl,
    (c8_strategy_rules ⟨5, true, "high", "formula"⟩).2.2.1 rfl⟩,
   (c8_strategy_rules ⟨0, false, "medium", "relationship"⟩).2.2.2.1
     ⟨by decide, rfl, by decide⟩⟩

/-- C9: a tool call whose capability raises still yields a transcript entry
whose observation is the error description ("工具执行错误: " plus the message,
lines 231-237), the node returns normally with exactly one entry per
requested call and hands control back to the agent (`next_step = "agent"`),
and the cycle can continue to the next oracle step and terminate — the final
transcript of a cycle whose oracle stops after the failure ends with the
terminal reply and contains the error observation. -/
theorem c9_action_failure_isolated (cap : ToolCall → Except String String)
    (msgsBefore : List Msg) (text finalText : String) (calls : List ToolCall)
    (c : ToolCall) (e : String) (hc : c ∈ calls) (he : cap c = Except.error e) :
    (Msg.toolMsg ("工具执行错误: " ++ e) c.id ∈
      (tool_node cap (msgsBefore ++ [Msg.ai text calls])).1) ∧
    (tool_node cap (msgsBefore ++ [Msg.ai text calls])).1.length =
      msgsBefore.length + 1 + calls.length ∧
    (tool_node cap (msgsBefore ++ [Msg.ai text calls])).2 = some "agent" ∧
    (Msg.toolMsg ("工具执行错误: " ++ e) c.id ∈
      runCycle cap [(text, calls), (finalText, [])] []) ∧
    (runCycle cap [(text, calls), (finalText, [])] []).getLast? =
      some (Msg.ai finalText []) := by
  have hne : calls ≠ [] := List.ne_nil_of_mem hc
  have hemp : calls.isEmpty = false := by
    simp [List.isEmpty_iff, hne]
  have hlast : lastToolCalls (msgsBefore ++ [Msg.ai text calls]) = calls := by
    unfold lastToolCalls
    rw [List.getLast?_concat]
  have hobs : toolObservation cap c = Msg.toolMsg ("工具执行错误: " ++ e) c.id := by
    unfold toolObservation
    rw [he]
  have htn : (tool_node cap (msgsBefore ++ [Msg.ai text calls])) =
      ((msgsBefore ++ [Msg.ai text calls]) ++ calls.map (toolObservation cap),
        some "agent") := by
    unfold tool_node
    rw [hlast]
    dsimp only
    simp [hemp]
  have hmem : Msg.toolMsg ("工具执行错误: " ++ e) c.id ∈ calls.map (toolObservation cap) := by
    rw [← hobs]
    exact List.mem_map_of_mem _ hc
  have hcyc : runCycle cap [(text, calls), (finalText, [])] [] =
      (([Msg.ai text calls] ++ calls.map (toolObservation cap)) ++ [Msg.ai finalText []]) := by
    unfold runCycle
    rw [hemp]
    unfold runCycle
    simp [tool_node, lastToolCalls, List.getLast?_concat, hemp]
  refine ⟨?_, ?_, ?_, ?_, ?_⟩
  · rw [htn]; simp [hmem]
  · rw [htn]; simp; omega
  · rw [htn]
  · rw [hcyc]; simp [hmem]
  · rw [hcyc]; rw [List.getLast?_concat]

/-- C9 witness: the isolation applied to a registry with no tools, so the
dispatched call raises `Unknown tool`, and to a two-step oracle script that
stops after observing the failure. -/
theorem c9_witness :
    (Msg.toolMsg ("工具执行错误: " ++ "Unknown tool: divide") "call-1" ∈
      (tool_node (toolExecutorInvoke [])
        ([] ++ [Msg.ai "试着调用工具" [⟨"call-1", "divide", "x"⟩]])).1) ∧
    (tool_node (toolExecutorInvoke [])
        ([] ++ [Msg.ai "试着调用工具" [⟨"call-1", "divide", "x"⟩]])).1.length =
      ([] : List Msg).length + 1 + [(⟨"call-1", "divide", "x"⟩ : ToolCall)].length ∧
    (tool_node (toolExecutorInvoke [])
        ([] ++ [Msg.ai "试着调用工具" [⟨"call-1", "divide", "x"⟩]])).2 = some "agent" ∧
    (Msg.toolMsg ("工具执行错误: " ++ "Unknown tool: divide") "call-1" ∈
      runCycle (toolExecutorInvoke [])
        [("试着调用工具", [⟨"call-1", "divide", "x"⟩]), ("评估完成", [])] []) ∧
    (runCycle (toolExecutorInvoke [])
        [("试着调用工具", [⟨"call-1", "divide", "x"⟩]), ("评估完成", [])] []).getLast? =
      some (Msg.ai "评估完成" []) :=
  c9_action_failure_isolated (toolExecutorInvoke []) [] "试着调用工具" "评估完成"
    [⟨"call-1", "divide", "x"⟩] ⟨"call-1", "divide", "x"⟩ "Unknown tool: divide"
    (by decide) rfl

/-- C10: when the assess-understanding stage runs with no learner response
(unset or empty), it short-circuits without invoking the assessor agent at
all (0 invocations — even a failing assessor is never consulted), sets
`assessment_result` to `not_understood` and `workflow_stage` to
"assessment_failed", and leaves every other state field unchanged. -/
theorem c10_assess_short_circuit (invoke : Except String AgentOracle) (s : TeachingState)
    (h : s.learner_response = none ∨ s.learner_response = some "") :
    assess_understanding_node invoke s =
      Except.ok ({ s with
          assessment_result := some "not_understood"
          workflow_stage := some "assessment_failed" }, 0) := by
  unfold assess_understanding_node
  rw [if_pos h]

/-- C10 witness: the short-circuit on the default state (no learner
response) with an assessor invocation that would raise if consulted. -/
theorem c10_witness :
    assess_understanding_node (Except.error "assessor unavailable") emptyState =
      Except.ok ({ emptyState with
          assessment_result := some "not_understood"
          workflow_stage := some "assessment_failed" }, 0) :=
  c10_assess_short_circuit (Except.error "assessor unavailable") emptyState (Or.inl rfl)
